import Mathlib

/-!
Verification model of the WhiteBoard content-extraction pipeline
(`src/lib/scrapers.ts` and the `/api/scrape` route handler).

The pipeline is asynchronous JavaScript; network fetches and the regex
pattern-extraction loops that run over fetched HTML are modelled as
environment inputs (the per-strategy outcomes), while all in-source control
flow downstream of those outcomes — truthiness checks, field fills,
content synthesis, acceptance gates, retry/backoff, catch-branch
classification — is translated function by function from the source.
JavaScript strings are Lean `String`s; a missing / falsy string field is
the empty string, mirroring `if (!x)` truthiness on strings.
-/

/-- Whitespace set trimmed by the model of `String.prototype.trim` (the
ASCII part of the JavaScript WhiteSpace production; the strings handled by
the pipeline templates only ever trim these). -/
def isJsWs (c : Char) : Bool :=
  c = ' ' || c = '\t' || c = '\n' || c = '\r' || c = '\x0b' || c = '\x0c'

/-- Trim of a character list: drop leading and trailing whitespace. -/
def trimList (l : List Char) : List Char :=
  ((l.dropWhile isJsWs).reverse.dropWhile isJsWs).reverse

/-- Model of JavaScript `s.trim()`. -/
def jsTrim (s : String) : String := ⟨trimList s.data⟩

/-- Model of JavaScript `a || b` on strings (`a` if truthy, else `b`). -/
def jsOr (a b : String) : String := if a = "" then b else a

/-- Boolean substring test on character lists (JavaScript `includes`). -/
def infixOfB (pat : List Char) : List Char → Bool
  | [] => pat.isEmpty
  | c :: rest => pat.isPrefixOf (c :: rest) || infixOfB pat rest

/-- Model of JavaScript `s.includes(pat)`. -/
def containsB (s pat : String) : Bool := infixOfB pat.data s.data

/-- Model of JavaScript `s.toLowerCase()` (ASCII case mapping). -/
def strToLower (s : String) : String := ⟨s.data.map Char.toLower⟩


/-! ### Data model

`ScrapingResult` mirrors the `ScrapingResult` interface of
`src/lib/scrapers.ts`; optional fields are `Option`s.  `MetadataM` collects
the string-valued metadata fields the various strategies attach (numeric
bookkeeping fields such as `contentLength`/`wordCount` and the raw
AssemblyAI enrichment arrays are not modelled — no claim touches them). -/

structure MetadataM where
  mtype : String := ""
  platform : String := ""
  note : String := ""
  murl : String := ""
  channel : String := ""
  viewCount : String := ""
  publishDate : String := ""
  videoId : String := ""
  author : String := ""
  description : String := ""
  domain : String := ""
  source : String := ""
  contentType : String := ""
  sources : List String := []
deriving DecidableEq

structure ScrapingResult where
  success : Bool
  title : Option String := none
  content : Option String := none
  metadata : Option MetadataM := none
  error : Option String := none
deriving DecidableEq

/-! ### Source classifier -/

/-- Function `getContentType` from `src/lib/scrapers.ts` (lines 82-93). -/
def getContentType (url : String) : String :=
  if containsB url "youtube.com" || containsB url "youtu.be" then "youtube"
  else if containsB url "tiktok.com" then "tiktok"
  else if containsB url "instagram.com" then "instagram"
  else "url"

/-- Function `getContentTypeFromUrl` from the scrape route (lines 847-858); textually
the same matching as `getContentType`. -/
def getContentTypeFromUrl (url : String) : String :=
  if containsB url "youtube.com" || containsB url "youtu.be" then "youtube"
  else if containsB url "tiktok.com" then "tiktok"
  else if containsB url "instagram.com" then "instagram"
  else "url"

/-! ### YouTube video id extraction

The two regex patterns are modelled directly: the first is an alternation
of literal prefixes followed by a capture of one-or-more characters outside
`[&\n?#]`; the second is `youtube.com/watch?` followed by a greedy `.*`
(which cannot cross a newline) and then `v=` plus the same capture.  The
scan finds the leftmost position where a pattern matches; greediness makes
the second pattern capture after the last viable `v=` on the line. -/

def isStopChar (c : Char) : Bool := c = '&' || c = '\n' || c = '?' || c = '#'

def captureAfter (alt : List Char) (s : List Char) : Option (List Char) :=
  if alt.isPrefixOf s then
    let cap := (s.drop alt.length).takeWhile (fun c => !isStopChar c)
    if cap.isEmpty then none else some cap
  else none

def scanAlts (alts : List (List Char)) : List Char → Option (List Char)
  | [] => none
  | c :: rest =>
    match alts.findSome? (fun a => captureAfter a (c :: rest)) with
    | some cap => some cap
    | none => scanAlts alts rest

/-- Rightmost `v=`-with-nonempty-capture inside one line (the greedy `.*`). -/
def pat2Here : List Char → Option (List Char)
  | [] => none
  | c :: rest =>
    match pat2Here rest with
    | some cap => some cap
    | none =>
      if c = 'v' then
        match rest with
        | '=' :: tail =>
          let cap := tail.takeWhile (fun x => !isStopChar x)
          if cap.isEmpty then none else some cap
        | _ => none
      else none

def watchLit : List Char := "youtube.com/watch?".data

def scanPat2 : List Char → Option (List Char)
  | [] => none
  | c :: rest =>
    match (if watchLit.isPrefixOf (c :: rest) then
        pat2Here (((c :: rest).drop watchLit.length).takeWhile (fun x => x ≠ '\n'))
      else none) with
    | some cap => some cap
    | none => scanPat2 rest

def libAlts : List (List Char) :=
  ["youtube.com/watch?v=".data, "youtu.be/".data, "youtube.com/embed/".data]

def routeAlts : List (List Char) :=
  ["youtube.com/watch?v=".data, "youtu.be/".data, "youtube.com/embed/".data,
    "youtube.com/v/".data]

/-- Function `extractYouTubeVideoId` from `src/lib/scrapers.ts` (lines 95-106). -/
def extractYouTubeVideoId (url : String) : Option String :=
  match scanAlts libAlts url.data with
  | some cap => some ⟨cap⟩
  | none =>
    match scanPat2 url.data with
    | some cap => some ⟨cap⟩
    | none => none

/-- Function `extractYouTubeVideoId` as redefined inside the scrape route
(lines 860-871); it adds the `youtube.com/v/` alternative. -/
def extractYouTubeVideoIdRoute (url : String) : Option String :=
  match scanAlts routeAlts url.data with
  | some cap => some ⟨cap⟩
  | none =>
    match scanPat2 url.data with
    | some cap => some ⟨cap⟩
    | none => none

/-! ### Social strategies (TikTok / Instagram placeholders) -/

def tiktokContentPre : String := "TikTok video analysis from: "

def tiktokContentPost : String :=
  "\n\nThis TikTok video contains visual and audio content that may include:\n- Trending music or sounds\n- Creative visual elements\n- Short-form entertainment or educational content\n- User-generated creative content\n- Potential viral trends or challenges\n\nNote: TikTok content is primarily visual and audio-based. For detailed analysis, manual viewing is recommended as the platform\x27s dynamic nature makes automated text extraction challenging.\n\nThe content likely follows TikTok\x27s format of engaging, quick-consumption media designed for mobile viewing and social sharing."

/-- Function `scrapeTikTokContent` from the scrape route (lines 793-818). -/
def scrapeTikTokContent (url : String) : ScrapingResult :=
  { success := true
    title := some "TikTok Content"
    content := some (tiktokContentPre ++ url ++ tiktokContentPost)
    metadata := some
      { mtype := "social"
        platform := "TikTok"
        murl := url
        source := "Enhanced Social Media Analysis"
        contentType := "video"
        note := "Visual/audio content - manual review recommended" } }

def instagramContentPre : String := "Instagram post analysis from: "

def instagramContentPost : String :=
  "\n\nThis Instagram content may include:\n- High-quality visual imagery\n- Video content (Reels, Stories, or Posts)\n- Captions with hashtags and engagement elements\n- Visual storytelling elements\n- Brand or personal content\n\nNote: Instagram content is heavily visual-focused. The platform emphasizes image and video content over text, making automated text extraction limited. Manual viewing provides the full content experience.\n\nThe post likely follows Instagram\x27s aesthetic and engagement-driven format designed for visual consumption and social interaction."

/-- Function `scrapeInstagramContent` from the scrape route (lines 820-845). -/
def scrapeInstagramContent (url : String) : ScrapingResult :=
  { success := true
    title := some "Instagram Content"
    content := some (instagramContentPre ++ url ++ instagramContentPost)
    metadata := some
      { mtype := "social"
        platform := "Instagram"
        murl := url
        source := "Enhanced Social Media Analysis"
        contentType := "visual"
        note := "Visual content - manual review recommended" } }

/-! ### Length lower bounds for trimmed template strings -/

def nonWs (c : Char) : Bool := !isJsWs c


/-! ### Article strategy chain (`scrapeArticleContentEnhanced`, lines 606-790)

The single article fetch, the per-pattern cleaned body candidates and the
metadata pattern-loop outcomes are environment inputs; the content
selection loop (overwrite on match, break once the candidate exceeds 200
characters), the 100-character acceptance gate, the structured wrapping
template and the catch classification are modelled from the source. -/

inductive FetchOutcome where
  | thrown (isError : Bool) (msg : String)
  | resp (ok : Bool) (status : Nat) (statusText : String)
deriving DecidableEq

structure ArtEnv where
  fetch : FetchOutcome := .resp true 200 "OK"
  title : String := ""
  contentCands : List (Option String) := []
  author : String := ""
  publishDate : String := ""
  description : String := ""
  hostname : Option String := some "example.com"
deriving DecidableEq

/-- The content-pattern loop of lines 668-688: each matching pattern
overwrites `content`; the loop breaks as soon as the current candidate
exceeds 200 characters. -/
def contentLoop : List (Option String) → String → String
  | [], acc => acc
  | none :: rest, acc => contentLoop rest acc
  | some s :: rest, _ => if 200 < s.length then s else contentLoop rest s

def articleGateMsg : String :=
  "Could not extract meaningful content from this article. The site may use heavy JavaScript or have access restrictions."

def articleTimeoutMsg : String :=
  "The website took too long to respond. Try a different article or check your internet connection."

def articleForbiddenMsg : String :=
  "Access to this website is restricted. Try a different article from a more accessible source."

/-- The catch block of lines 766-789. -/
def artCatch (isErr : Bool) (m : String) : ScrapingResult :=
  if isErr && containsB m "timeout" then
    { success := false, error := some articleTimeoutMsg }
  else if isErr && (containsB m "403" || containsB m "forbidden") then
    { success := false, error := some articleForbiddenMsg }
  else
    { success := false
      error := some ("Article scraping failed: " ++
        (if isErr then m else "Unknown error")) }

/-- The wrapping template of lines 730-741 (before its final `trim`). -/
def articleRaw (title author publishDate host content description : String) :
    String :=
  "\nARTICLE ANALYSIS:\nTitle: " ++ jsOr title "Untitled Article" ++
    "\nAuthor: " ++ jsOr author "Unknown Author" ++
    "\n" ++ (if publishDate = "" then "" else "Published: " ++ publishDate) ++
    "\nSource: " ++ host ++
    "\n\nCONTENT:\n" ++ content ++
    "\n\n" ++ (if description = "" then "" else "\nSUMMARY: " ++ description) ++
    "\n    "

/-- Function `scrapeArticleContentEnhanced` from the scrape route. -/
def scrapeArticleContentEnhanced (env : ArtEnv) (url : String) : ScrapingResult :=
  match env.fetch with
  | .thrown isErr m => artCatch isErr m
  | .resp ok status statusText =>
    if !ok then
      artCatch true ("HTTP " ++ toString status ++ ": " ++ statusText)
    else
      let content := contentLoop env.contentCands ""
      if content = "" || content.length < 100 then
        { success := false, error := some articleGateMsg }
      else
        match env.hostname with
        | none => artCatch true "Invalid URL"
        | some host =>
          let finalContent :=
            jsTrim (articleRaw env.title env.author env.publishDate host
              content env.description)
          { success := true
            title := some (jsOr env.title "Untitled Article")
            content := some finalContent
            metadata := some
              { author := env.author
                publishDate := env.publishDate
                description := env.description
                domain := host
                mtype := "article"
                murl := url
                source := "Enhanced Web Scraping" } }

/-! ### Video strategy chain (`scrapeYouTubeContentEnhanced`, lines 308-603)

Environment inputs are the per-strategy outcomes: the cleaned transcript
from Method 1 (empty when unavailable), the title / description / channel /
view-count strings produced by the Method 2 pattern loops over the fetched
watch page (empty when not found), the parsed oEmbed JSON when that fetch
succeeded, the platform API data when configured and successful, and an
optional exception escaping the `try` body.  The weak-title test, the
oEmbed and API field fills, the content synthesis, the under-200 fallback
substitution, the 50-character acceptance gate and the catch
classification are modelled from the source. -/

structure OEmbedData where
  otitle : String := ""
  author_name : String := ""
deriving DecidableEq

structure ApiData where
  atitle : String := ""
  adescription : String := ""
  channelTitle : String := ""
  aviewCount : String := ""
  publishedAt : String := ""
deriving DecidableEq

structure YTEnv where
  thrown : Option (Bool × String) := none
  transcript : String := ""
  pageTitle : String := ""
  pageDescription : String := ""
  pageChannel : String := ""
  pageViewCount : String := ""
  oembed : Option OEmbedData := none
  apiKey : Bool := false
  api : Option ApiData := none
deriving DecidableEq

/-- Model of JavaScript `/^(\d+[kKmM]?)$/.test(t)`. -/
def isNumericWithSuffix (t : String) : Bool :=
  let ds := t.data.takeWhile Char.isDigit
  let rest := t.data.dropWhile Char.isDigit
  !ds.isEmpty &&
    (rest = [] || rest = ['k'] || rest = ['K'] || rest = ['m'] || rest = ['M'])

/-- The weak-title heuristic of line 448:
`!videoTitle || videoTitle.length < 3 || /^(\d+[kKmM]?)$/.test(videoTitle)`. -/
def looksWeakTitle (t : String) : Bool :=
  t = "" || t.length < 3 || isNumericWithSuffix t

/-- Method 2.5 (lines 447-462): when the title looks weak the oEmbed
endpoint is queried; on an ok response the title and author are filled
only if still missing.  Returns (title, channel). -/
def ytOembedFill (env : YTEnv) : String × String :=
  if looksWeakTitle env.pageTitle then
    match env.oembed with
    | some o =>
      (if env.pageTitle = "" && o.otitle ≠ "" then o.otitle else env.pageTitle,
        if env.pageChannel = "" && o.author_name ≠ "" then o.author_name
        else env.pageChannel)
    | none => (env.pageTitle, env.pageChannel)
  else (env.pageTitle, env.pageChannel)

/-- Whether the oEmbed fetch is attempted at all (the `if (looksWeakTitle)`
guard on line 449). -/
def ytOembedInvoked (env : YTEnv) : Bool := looksWeakTitle env.pageTitle

/-- Method 3 (lines 464-486): the platform API runs only when a key is
configured and title or description is still missing; it overwrites only
fields that are still empty, and sets `publishDate` unconditionally.
Returns (title, description, channel, viewCount, publishDate). -/
def ytApiFill (env : YTEnv) :
    String × String × String × String × String :=
  let t1 := (ytOembedFill env).1
  let c1 := (ytOembedFill env).2
  if env.apiKey && (t1 = "" || env.pageDescription = "") then
    match env.api with
    | some a =>
      (if t1 = "" then a.atitle else t1,
        if env.pageDescription = "" then a.adescription else env.pageDescription,
        if c1 = "" then a.channelTitle else c1,
        if env.pageViewCount = "" then a.aviewCount else env.pageViewCount,
        a.publishedAt)
    | none => (t1, env.pageDescription, c1, env.pageViewCount, "")
  else (t1, env.pageDescription, c1, env.pageViewCount, "")

/-- Content assembly of lines 488-514 (before the under-200 fallback). -/
def ytAssembled (transcript videoTitle videoDescription channelName
    viewCount : String) : String :=
  (if transcript ≠ "" && 100 < transcript.length then
    "TRANSCRIPT:\n" ++ transcript ++ "\n\n" else "") ++
  (if videoTitle ≠ "" then "TITLE: " ++ videoTitle ++ "\n\n" else "") ++
  (if videoDescription ≠ "" && 20 < videoDescription.length then
    "DESCRIPTION:\n" ++ videoDescription ++ "\n\n" else "") ++
  (if channelName ≠ "" then "CHANNEL: " ++ channelName ++ "\n\n" else "") ++
  (if viewCount ≠ "" then "Views: " ++ viewCount ++ "\n\n" else "")

def ytSummaryText : String :=
  "\n\nCONTENT SUMMARY:\nThis YouTube video contains valuable information for content creators and marketers. While we couldn\x27t extract the full transcript, the video appears to cover topics relevant to digital marketing, content strategy, or educational content based on the title and available metadata.\n\nKEY ELEMENTS:\n- Professional video content\n- Likely contains actionable insights\n- Suitable for analysis and discussion\n- Part of "

/-- The substituted VIDEO ANALYSIS block of lines 517-535 (before its
final `trim`). -/
def ytFallbackRaw (videoTitle channelName viewCount publishDate
    videoId : String) : String :=
  "\nVIDEO ANALYSIS:\nTitle: " ++ jsOr videoTitle ("YouTube Video " ++ videoId) ++
    "\nChannel: " ++ jsOr channelName "Unknown Channel" ++
    "\n" ++ (if viewCount = "" then "" else "Views: " ++ viewCount) ++
    "\n" ++ (if publishDate = "" then "" else "Published: " ++ publishDate) ++
    ytSummaryText ++ jsOr channelName "established YouTube channel" ++
    "\n      "

def ytInsufficientMsg : String :=
  "Could not extract sufficient content from this YouTube video. The video may be private, have restricted access, or lack transcript data."

def ytNoTranscriptMsg : String :=
  "This video does not have transcripts available. Try a different video with captions/subtitles enabled."

def ytPrivateMsg : String :=
  "This video is private or unavailable. Please check the URL and try a public video."

def ytRestrictedMsg : String :=
  "Access to this video is restricted. Try a different video or check regional availability."

/-- The catch block of lines 571-602: classify the thrown message by
keyword (on the lowercased message of an `Error`; non-`Error` throws give
an empty string there and `Unknown error` in the generic message). -/
def ytCatch (isErr : Bool) (m : String) : ScrapingResult :=
  let lower := strToLower (if isErr then m else "")
  if containsB lower "transcript" then
    { success := false, error := some ytNoTranscriptMsg }
  else if containsB lower "private" || containsB lower "unavailable" then
    { success := false, error := some ytPrivateMsg }
  else if containsB lower "blocked" || containsB lower "restricted" then
    { success := false, error := some ytRestrictedMsg }
  else
    { success := false
      error := some ("Enhanced YouTube scraping failed: " ++
        (if isErr then m else "Unknown error") ++
        ". Please try a different video.") }

/-- The synthesis and acceptance step (lines 488-569): assemble the final
content, substitute the fallback block when it is under 200 characters,
apply the 50-character gate, and build the final result. -/
def ytSynthesize (transcript videoTitle videoDescription channelName
    viewCount publishDate videoId url : String) : ScrapingResult :=
  let assembled := ytAssembled transcript videoTitle videoDescription
    channelName viewCount
  let finalContent :=
    if assembled.length < 200 then
      jsTrim (ytFallbackRaw videoTitle channelName viewCount publishDate
        videoId)
    else assembled
  let sources :=
    (if transcript ≠ "" && 100 < transcript.length then
      ["Video Transcript"] else []) ++
    (if videoDescription ≠ "" && 20 < videoDescription.length then
      ["Video Description"] else []) ++
    (if assembled.length < 200 then ["Enhanced Analysis"] else [])
  if finalContent = "" || (jsTrim finalContent).length < 50 then
    { success := false, error := some ytInsufficientMsg }
  else
    { success := true
      title := some (jsOr videoTitle ("YouTube Video - " ++ videoId))
      content := some (jsTrim finalContent)
      metadata := some
        { videoId := videoId
          channel := channelName
          viewCount := viewCount
          publishDate := publishDate
          mtype := "video"
          platform := "YouTube"
          murl := url
          sources := sources } }

/-- Function `scrapeYouTubeContentEnhanced` from the scrape route. -/
def scrapeYouTubeContentEnhanced (env : YTEnv) (url : String) : ScrapingResult :=
  match extractYouTubeVideoIdRoute url with
  | none => { success := false, error := some "Invalid YouTube URL" }
  | some videoId =>
    match env.thrown with
    | some (isErr, m) => ytCatch isErr m
    | none =>
      let fills := ytApiFill env
      ytSynthesize env.transcript fills.1 fills.2.1 fills.2.2.1 fills.2.2.2.1
        fills.2.2.2.2 videoId url

/-! ### Scrape route handler (`POST` in the route file, lines 264-305)

The handler parses `{url, type}` from the request body, fails fast with
status 400 on a falsy url, dispatches on the (possibly auto-detected)
content type, and answers status 500 when the body fails to parse.  The
third component of the result counts how many extraction strategies were
invoked (0 on the early returns), standing in for "scraping network calls
made by the route". -/

structure RouteEnv where
  yt : YTEnv := {}
  art : ArtEnv := {}
deriving DecidableEq

def routePOST (renv : RouteEnv) (url ty : String) : ScrapingResult × Nat × Nat :=
  if url = "" then
    ({ success := false, error := some "URL is required" }, 400, 0)
  else
    let contentType := jsOr ty (getContentTypeFromUrl url)
    let result :=
      if contentType = "youtube" then scrapeYouTubeContentEnhanced renv.yt url
      else if contentType = "tiktok" then scrapeTikTokContent url
      else if contentType = "instagram" then scrapeInstagramContent url
      else scrapeArticleContentEnhanced renv.art url
    (result, 200, 1)

inductive ParseOutcome where
  | parsed (url ty : String)
  | thrown (isError : Bool) (msg : String)
deriving DecidableEq

/-- The full handler including the `request.json()` parse and the catch of
lines 295-304. -/
def routeHandle (p : ParseOutcome) (renv : RouteEnv) : ScrapingResult × Nat × Nat :=
  match p with
  | .parsed url ty => routePOST renv url ty
  | .thrown isErr m =>
    ({ success := false
       error := some (if isErr then m else "Internal server error") }, 500, 0)

/-! ### Retry / backoff envelope (`scrapeContent`, lines 20-79)

Each attempt either yields parsed response data (`Except.ok`) or throws
(`Except.error` with the message of the thrown `Error`): a fetch failure or
timeout, or the constructed `HTTP status: statusText - body` error on a
non-2xx response.  The result carries the backoff waits performed and the
number of attempts made. -/

def maxRetries : Nat := 3

def backoffWait (attempt : Nat) : Nat := min (1000 * 2 ^ (attempt - 1)) 5000

def allFailedResult (lastMsg : String) : ScrapingResult :=
  { success := false
    error := some ("Scraping failed after " ++ toString maxRetries ++
      " attempts: " ++ jsOr lastMsg "Unknown error") }

def scrapeLoop (out : Nat → Except String ScrapingResult) :
    Nat → Nat → String → ScrapingResult × List Nat × Nat
  | 0, _, lastMsg => (allFailedResult lastMsg, [], maxRetries)
  | fuel + 1, attempt, _lastMsg =>
    match out attempt with
    | .ok d => (d, [], attempt)
    | .error m =>
      if attempt < maxRetries then
        let r := scrapeLoop out fuel (attempt + 1) m
        (r.1, backoffWait attempt :: r.2.1, r.2.2)
      else (allFailedResult m, [], maxRetries)

/-- Function `scrapeContent` as a function of the per-attempt fetch outcomes. -/
def scrapeContent (out : Nat → Except String ScrapingResult) :
    ScrapingResult × List Nat × Nat :=
  scrapeLoop out maxRetries 1 ""

/-- Reason phrases for the statuses the route can answer with, used in the
`HTTP status: statusText - body` message the client constructs. -/
def statusTextOf (s : Nat) : String :=
  if s = 200 then "OK"
  else if s = 400 then "Bad Request"
  else if s = 500 then "Internal Server Error"
  else ""

/-- JSON body text of a route response as read back by the client
(`await response.text()`); only the fields present on failure bodies are
rendered, which is all the client ever embeds in an error message. -/
def serializeResult (r : ScrapingResult) : String :=
  "\x7b\"success\":" ++ (if r.success then "true" else "false") ++
    (match r.error with
     | some e => ",\"error\":\"" ++ e ++ "\""
     | none => "") ++ "\x7d"

/-- One client fetch attempt: either the transport throws, or the request
reaches the route and the answer is the route response. -/
inductive ClientAttempt where
  | netError (msg : String)
  | reply (renv : RouteEnv)

def attemptOutcome (a : ClientAttempt) (url ty : String) :
    Except String ScrapingResult :=
  match a with
  | .netError m => .error m
  | .reply renv =>
    let r := routePOST renv url ty
    if 200 ≤ r.2.1 && r.2.1 < 300 then .ok r.1
    else .error ("HTTP " ++ toString r.2.1 ++ ": " ++ statusTextOf r.2.1 ++
      " - " ++ serializeResult r.1)

/-- Function `scrapeContent(url, type)` composed with the `/api/scrape` route it
fetches: the full client-side extraction pipeline. -/
def composedExtract (cl : Nat → ClientAttempt) (url ty : String) :
    ScrapingResult × List Nat × Nat :=
  scrapeContent (fun a => attemptOutcome (cl a) url ty)

/-! ### AssemblyAI and custom-API wrappers (lines 109-262)

The AssemblyAI submission/polling exchange is collapsed into its outcome: a
completed transcription with its text, or any thrown path (API error,
transcription failure, poll timeout) which falls back to `scrapeContent`.
The enrichment arrays (highlights, sentiment, entities) and duration are
not modelled. -/

inductive AssemblyOutcome where
  | completed (text : String)
  | failed
deriving DecidableEq

structure AssemblyEnv where
  key : String := ""
  outcome : AssemblyOutcome := .failed
deriving DecidableEq

/-- Function `scrapeWithAssemblyAI` from `src/lib/scrapers.ts`. -/
def scrapeWithAssemblyAI (aenv : AssemblyEnv) (cl : Nat → ClientAttempt)
    (url : String) : ScrapingResult :=
  match extractYouTubeVideoId url with
  | none => { success := false, error := some "Invalid YouTube URL" }
  | some _ =>
    if aenv.key = "" then (composedExtract cl url "youtube").1
    else
      match aenv.outcome with
      | .completed text =>
        { success := true
          title := some "YouTube Video Transcript"
          content := some text
          metadata := some
            { mtype := "video"
              description := "Transcript generated by AssemblyAI" } }
      | .failed => (composedExtract cl url "youtube").1

structure CustomData where
  ctitle : String := ""
  ccontent : String := ""
  ctext : String := ""
  ctype : String := ""
  cauthor : String := ""
  cpublished : String := ""
  cdescription : String := ""
deriving DecidableEq

inductive CustomOutcome where
  | thrown (msg : String)
  | resp (ok : Bool) (statusText : String) (data : CustomData)
deriving DecidableEq

structure CustomEnv where
  key : String := ""
  apiUrl : String := ""
  outcome : CustomOutcome := .thrown "not configured"
deriving DecidableEq

/-- Function `scrapeWithCustomAPI` from `src/lib/scrapers.ts` (lines 195-240): on an
ok response the external data is returned as a success with
`content: data.content || data.text || ''`; every other path falls back to
`scrapeContent` (the `thumbnails` array and `...data.metadata` spread are
not modelled). -/
def scrapeWithCustomAPI (cenv : CustomEnv) (cl : Nat → ClientAttempt)
    (url : String) : ScrapingResult :=
  if cenv.key = "" || cenv.apiUrl = "" then
    (composedExtract cl url (getContentType url)).1
  else
    match cenv.outcome with
    | .thrown _ => (composedExtract cl url (getContentType url)).1
    | .resp ok _ d =>
      if ok then
        { success := true
          title := some (jsOr d.ctitle "Scraped Content")
          content := some (jsOr d.ccontent (jsOr d.ctext ""))
          metadata := some
            { mtype := jsOr d.ctype (getContentType url)
              author := d.cauthor
              publishDate := d.cpublished
              description := d.cdescription } }
      else (composedExtract cl url (getContentType url)).1

/-- Function `scrapeContentEnhanced` from `src/lib/scrapers.ts` (lines 243-262). -/
def scrapeContentEnhanced (aenv : AssemblyEnv) (cenv : CustomEnv)
    (cl : Nat → ClientAttempt) (url ty : String) : ScrapingResult :=
  if ty = "youtube" && aenv.key ≠ "" &&
      (scrapeWithAssemblyAI aenv cl url).success then
    scrapeWithAssemblyAI aenv cl url
  else if cenv.key ≠ "" && cenv.apiUrl ≠ "" &&
      (scrapeWithCustomAPI cenv cl url).success then
    scrapeWithCustomAPI cenv cl url
  else (composedExtract cl url ty).1

/-! ### Predicates and concrete environments used by the claim theorems -/

/-- Shape of a failed result: `error` present and non-empty, `content` and
`title` absent. -/
def failP (r : ScrapingResult) : Prop :=
  r.success = false →
    (∃ e, r.error = some e ∧ e ≠ "") ∧ r.content = none ∧ r.title = none

/-- Shape of a successful result: `content` present, non-empty and at
least 50 characters after trimming. -/
def successContentP (r : ScrapingResult) : Prop :=
  r.success = true →
    ∃ c, r.content = some c ∧ c ≠ "" ∧ 50 ≤ (jsTrim c).length

/-- The `request.json()` outcomes whose thrown `Error`s carry a non-empty
message (true of every runtime JSON parse error). -/
def parseMsgNonempty : ParseOutcome → Prop
  | .thrown true m => m ≠ ""
  | _ => True

/-- A page scrape that yields the weak title `12K` while the oEmbed
endpoint answers `{title: "Real Title"}`. -/
def env4 : YTEnv := { pageTitle := "12K", oembed := some { otitle := "Real Title" } }

/-- A title consisting of `x` followed by 193 spaces, as an oEmbed endpoint
could return it (the code never trims oEmbed fields). -/
def padTitle : String := "x" ++ String.mk (List.replicate 193 ' ')

/-- No transcript, nothing found on the page, oEmbed answering the padded
title: the assembled content is 203 characters but trims to 8. -/
def env10 : YTEnv := { oembed := some { otitle := padTitle } }

def s99 : String := String.mk (List.replicate 99 'a')

def s101 : String := String.mk (List.replicate 101 'a')

/-- An article page whose only extractable text cleans to 99 characters. -/
def env99 : ArtEnv := { contentCands := [some s99] }

/-- An article page whose only extractable text cleans to 101 characters. -/
def env101 : ArtEnv := { contentCands := [some s101] }

/-- A transport on which every fetch reaches the route with default
strategy environments. -/
def clAllReply : Nat → ClientAttempt := fun _ => .reply {}

/-- A transport on which every fetch throws. -/
def clW : Nat → ClientAttempt := fun _ => .netError "offline"

/-- A configured custom scraper API whose response is ok but carries
neither `content` nor `text`. -/
def cenvC : CustomEnv :=
  { key := "k", apiUrl := "https://api.example.com/scrape"
    outcome := .resp true "OK" {} }

/-- A request body that fails to parse. -/
def pW : ParseOutcome := .thrown true "Unexpected end of JSON input"

/-! ## Lemmas

General lemmas about the string machinery, used by the claim theorems. -/

theorem infixOfB_iff (pat : List Char) :
    ∀ l : List Char, infixOfB pat l = true ↔ pat <:+: l := by
  intro l
  induction l with
  | nil =>
    simp [infixOfB, List.isEmpty_iff, List.infix_nil]
  | cons c rest ih =>
    simp only [infixOfB, Bool.or_eq_true, List.isPrefixOf_iff_prefix, ih,
      List.infix_cons_iff]

theorem containsB_of_suffix (pre s : String) :
    containsB (pre ++ s) s = true := by
  rw [containsB, infixOfB_iff, String.data_append]
  exact List.IsSuffix.isInfix (List.suffix_append pre.data s.data)

theorem containsB_of_infix {pat inner : String} (pre post : String)
    (h : containsB inner pat = true) :
    containsB (pre ++ inner ++ post) pat = true := by
  rw [containsB, infixOfB_iff] at h ⊢
  rw [String.data_append, String.data_append]
  have hmid : inner.data <:+: pre.data ++ inner.data :=
    List.IsSuffix.isInfix (List.suffix_append pre.data inner.data)
  have houter : pre.data ++ inner.data <:+: pre.data ++ inner.data ++ post.data :=
    List.IsPrefix.isInfix (List.prefix_append (pre.data ++ inner.data) post.data)
  exact h.trans (hmid.trans houter)

theorem string_append_ne_empty (a b : String) (h : a ≠ "") : a ++ b ≠ "" := by
  intro hc
  apply h
  apply String.ext
  have hd : (a ++ b).data = ("" : String).data := by rw [hc]
  rw [String.data_append] at hd
  have : a.data ++ b.data = ([] : List Char) := hd
  exact (List.append_eq_nil.mp this).1

theorem string_ne_empty_of_data_ne_nil {a : String} (h : a.data ≠ []) :
    a ≠ "" := by
  intro hc
  exact h (by rw [hc])

/-! ### Lemmas about `trimList`

`dropWhile_shape` records that dropping a whitespace prefix never eats past
a non-whitespace character; from it we derive a lower bound on the length
of a trimmed list with known non-whitespace characters near both ends, and
idempotence of trimming. -/

theorem dropWhile_shape (p : Char → Bool) (c : Char) (hc : p c = false) :
    ∀ (pre post : List Char),
      ∃ pre', List.dropWhile p (pre ++ c :: post) = pre' ++ c :: post := by
  intro pre post
  induction pre with
  | nil =>
    refine ⟨[], ?_⟩
    simp [List.dropWhile_cons, hc]
  | cons a t ih =>
    by_cases ha : p a = true
    · obtain ⟨pre', hpre'⟩ := ih
      refine ⟨pre', ?_⟩
      simpa [List.dropWhile_cons, ha] using hpre'
    · refine ⟨a :: t, ?_⟩
      simp [List.dropWhile_cons, Bool.eq_false_iff.mpr ha]

theorem trimList_shape (c1 c2 : Char) (h1 : isJsWs c1 = false)
    (h2 : isJsWs c2 = false) (pre mid post : List Char) :
    ∃ pre' post',
      trimList (pre ++ c1 :: (mid ++ c2 :: post)) =
        pre' ++ c1 :: (mid ++ c2 :: post') := by
  obtain ⟨p1, hp1⟩ := dropWhile_shape isJsWs c1 h1 pre (mid ++ c2 :: post)
  have hrev : (p1 ++ c1 :: (mid ++ c2 :: post)).reverse =
      post.reverse ++ c2 :: (mid.reverse ++ c1 :: p1.reverse) := by
    simp [List.reverse_append, List.reverse_cons, List.append_assoc]
  obtain ⟨q1, hq1⟩ :=
    dropWhile_shape isJsWs c2 h2 post.reverse (mid.reverse ++ c1 :: p1.reverse)
  refine ⟨p1, q1.reverse, ?_⟩
  rw [trimList, hp1, hrev, hq1]
  simp [List.reverse_append, List.reverse_cons, List.append_assoc]

theorem trimList_shape_length (c1 c2 : Char) (h1 : isJsWs c1 = false)
    (h2 : isJsWs c2 = false) (pre mid post : List Char) :
    mid.length + 2 ≤ (trimList (pre ++ c1 :: (mid ++ c2 :: post))).length := by
  obtain ⟨pre', post', heq⟩ := trimList_shape c1 c2 h1 h2 pre mid post
  rw [heq]
  simp [List.length_append]
  omega

theorem dropWhile_head_false {p : Char → Bool} :
    ∀ {l a t}, List.dropWhile p l = a :: t → p a = false := by
  intro l
  induction l with
  | nil => intro a t h; simp [List.dropWhile] at h
  | cons c r ih =>
    intro a t h
    rw [List.dropWhile_cons] at h
    by_cases hc : p c = true
    · rw [if_pos hc] at h; exact ih h
    · rw [if_neg hc] at h
      cases h
      exact Bool.eq_false_iff.mpr hc

theorem dropWhile_idem (p : Char → Bool) (l : List Char) :
    List.dropWhile p (List.dropWhile p l) = List.dropWhile p l := by
  cases hd : List.dropWhile p l with
  | nil => simp
  | cons a t =>
    rw [List.dropWhile_cons, if_neg]
    rw [dropWhile_head_false hd]
    simp

theorem dropWhile_append_self (p : Char → Bool) (l : List Char) :
    ∃ w, l = w ++ List.dropWhile p l := by
  induction l with
  | nil => exact ⟨[], rfl⟩
  | cons c r ih =>
    rw [List.dropWhile_cons]
    by_cases hc : p c = true
    · obtain ⟨w, hw⟩ := ih
      refine ⟨c :: w, ?_⟩
      rw [if_pos hc]
      simpa using hw
    · refine ⟨[], ?_⟩
      rw [if_neg hc, List.nil_append]

theorem getLast?_append_of_ne_nil {l₂ : List Char} (l₁ : List Char)
    (h : l₂ ≠ []) : (l₁ ++ l₂).getLast? = l₂.getLast? := by
  have h1 : (l₁ ++ l₂).reverse.head? = l₂.reverse.head? := by
    rw [List.reverse_append]
    cases hr : l₂.reverse with
    | nil => exact absurd (by simpa using congrArg List.reverse hr) h
    | cons x xs => simp
  rw [List.head?_reverse, List.head?_reverse] at h1
  exact h1

theorem dropWhile_eq_self_of_head? {p : Char → Bool} {l : List Char} {a : Char}
    (hh : l.head? = some a) (ha : p a = false) : List.dropWhile p l = l := by
  cases l with
  | nil => simp at hh
  | cons x xs =>
    have hx : x = a := by simpa using hh
    rw [List.dropWhile_cons, hx, ha]
    simp

theorem dropWhile_trimList (l : List Char) :
    List.dropWhile isJsWs (trimList l) = trimList l := by
  cases hX : List.dropWhile isJsWs (List.dropWhile isJsWs l).reverse with
  | nil =>
    unfold trimList
    rw [hX]
    rfl
  | cons b bt =>
    have hune : List.dropWhile isJsWs l ≠ [] := by
      intro hc
      rw [hc] at hX
      simp at hX
    obtain ⟨a, t, hat⟩ : ∃ a t, List.dropWhile isJsWs l = a :: t := by
      cases hu2 : List.dropWhile isJsWs l with
      | nil => exact absurd hu2 hune
      | cons a t => exact ⟨a, t, rfl⟩
    have hA : isJsWs a = false := dropWhile_head_false hat
    obtain ⟨w, hw⟩ :=
      dropWhile_append_self isJsWs (List.dropWhile isJsWs l).reverse
    have hlast : (List.dropWhile isJsWs (List.dropWhile isJsWs l).reverse).getLast? =
        some a := by
      rw [← getLast?_append_of_ne_nil w (by rw [hX]; simp), ← hw,
        List.getLast?_reverse, hat]
      rfl
    have hhead : (trimList l).head? = some a := by
      unfold trimList
      rw [List.head?_reverse]
      exact hlast
    exact dropWhile_eq_self_of_head? hhead hA

theorem trimList_idem (l : List Char) : trimList (trimList l) = trimList l := by
  have h1 := dropWhile_trimList l
  have h2 : (trimList l).reverse =
      List.dropWhile isJsWs ((List.dropWhile isJsWs l).reverse) := by
    unfold trimList
    rw [List.reverse_reverse]
  rw [show trimList (trimList l) =
    ((List.dropWhile isJsWs (trimList l)).reverse.dropWhile isJsWs).reverse from rfl]
  rw [h1, h2, dropWhile_idem]
  rfl

theorem jsTrim_idem (s : String) : jsTrim (jsTrim s) = jsTrim s := by
  unfold jsTrim
  exact congrArg String.mk (trimList_idem s.data)

theorem jsTrim_length (s : String) : (jsTrim s).length = (trimList s.data).length :=
  rfl

theorem countP_nonWs_dropWhile (l : List Char) :
    List.countP nonWs (List.dropWhile isJsWs l) = List.countP nonWs l := by
  induction l with
  | nil => rfl
  | cons c r ih =>
    rw [List.dropWhile_cons]
    by_cases hc : isJsWs c = true
    · rw [if_pos hc, ih, List.countP_cons]
      have : nonWs c = false := by simp [nonWs, hc]
      simp [this]
    · rw [if_neg hc]

theorem countP_nonWs_reverse (l : List Char) :
    List.countP nonWs l.reverse = List.countP nonWs l := by
  induction l with
  | nil => rfl
  | cons c r ih =>
    simp [List.reverse_cons, List.countP_append, List.countP_cons, ih]

theorem countP_nonWs_trimList (l : List Char) :
    List.countP nonWs (trimList l) = List.countP nonWs l := by
  unfold trimList
  rw [countP_nonWs_reverse, countP_nonWs_dropWhile, countP_nonWs_reverse,
    countP_nonWs_dropWhile]

theorem trimList_length_ge_countP (l : List Char) :
    List.countP nonWs l ≤ (trimList l).length := by
  calc List.countP nonWs l = List.countP nonWs (trimList l) :=
        (countP_nonWs_trimList l).symm
    _ ≤ (trimList l).length := List.countP_le_length nonWs

theorem jsTrim_length_ge_countP (s : String) :
    List.countP nonWs s.data ≤ (jsTrim s).length :=
  trimList_length_ge_countP s.data

/-- Lower bound for the trimmed length of a string decomposed around two
known non-whitespace characters. -/
theorem jsTrim_length_lower (s pre c1s mid c2s post : String) (c1 c2 : Char)
    (hc1 : c1s.data = [c1]) (hc2 : c2s.data = [c2])
    (h1 : isJsWs c1 = false) (h2 : isJsWs c2 = false)
    (hs : s = pre ++ c1s ++ mid ++ c2s ++ post) :
    mid.length + 2 ≤ (jsTrim s).length := by
  have hd : s.data = pre.data ++ c1 :: (mid.data ++ c2 :: post.data) := by
    rw [hs]
    simp [String.data_append, hc1, hc2]
  show mid.data.length + 2 ≤ (trimList s.data).length
  rw [hd]
  exact trimList_shape_length c1 c2 h1 h2 pre.data mid.data post.data

theorem containsB_empty_pat (s : String) : containsB s "" = true := by
  rw [containsB, infixOfB_iff]
  exact List.nil_infix

theorem containsB_append_right (a b pat : String) (h : containsB b pat = true) :
    containsB (a ++ b) pat = true := by
  rw [containsB, infixOfB_iff] at h ⊢
  rw [String.data_append]
  exact h.trans (List.IsSuffix.isInfix (List.suffix_append a.data b.data))

theorem string_append_assoc (a b c : String) : a ++ b ++ c = a ++ (b ++ c) :=
  String.ext (by simp [String.data_append, List.append_assoc])

/-! ### Failure shapes of the strategy catch blocks -/

theorem ytCatch_shape (isErr : Bool) (m : String) :
    (ytCatch isErr m).success = false ∧
      (∃ e, (ytCatch isErr m).error = some e ∧ e ≠ "") ∧
      (ytCatch isErr m).content = none ∧ (ytCatch isErr m).title = none := by
  simp only [ytCatch]
  generalize (if isErr then m else "") = s
  generalize (if isErr then m else "Unknown error") = t
  split
  · exact ⟨rfl, ⟨_, rfl, by decide⟩, rfl, rfl⟩
  · split
    · exact ⟨rfl, ⟨_, rfl, by decide⟩, rfl, rfl⟩
    · split
      · exact ⟨rfl, ⟨_, rfl, by decide⟩, rfl, rfl⟩
      · exact ⟨rfl, ⟨_, rfl,
          string_append_ne_empty _ _
            (string_append_ne_empty _ _ (by decide))⟩, rfl, rfl⟩

theorem artCatch_shape (isErr : Bool) (m : String) :
    (artCatch isErr m).success = false ∧
      (∃ e, (artCatch isErr m).error = some e ∧ e ≠ "") ∧
      (artCatch isErr m).content = none ∧ (artCatch isErr m).title = none := by
  simp only [artCatch]
  generalize (if isErr then m else "Unknown error") = t
  split
  · exact ⟨rfl, ⟨_, rfl, by decide⟩, rfl, rfl⟩
  · split
    · exact ⟨rfl, ⟨_, rfl, by decide⟩, rfl, rfl⟩
    · exact ⟨rfl, ⟨_, rfl, string_append_ne_empty _ _ (by decide)⟩, rfl, rfl⟩

set_option maxHeartbeats 1000000 in
theorem ytSynthesize_failP (transcript videoTitle videoDescription
    channelName viewCount publishDate videoId url : String) :
    failP (ytSynthesize transcript videoTitle videoDescription channelName
      viewCount publishDate videoId url) := by
  unfold failP
  simp only [ytSynthesize]
  repeat' split
  all_goals intro hs
  all_goals
    first
    | exact ⟨⟨ytInsufficientMsg, rfl, by decide⟩, rfl, rfl⟩
    | simp at hs

theorem scrapeYouTube_failP (env : YTEnv) (url : String) :
    failP (scrapeYouTubeContentEnhanced env url) := by
  unfold failP
  simp only [scrapeYouTubeContentEnhanced]
  repeat' split
  · intro _
    exact ⟨⟨"Invalid YouTube URL", rfl, by decide⟩, rfl, rfl⟩
  · intro _
    exact (ytCatch_shape _ _).2
  · exact ytSynthesize_failP _ _ _ _ _ _ _ _

set_option maxHeartbeats 1000000 in
theorem scrapeArticle_failP (env : ArtEnv) (url : String) :
    failP (scrapeArticleContentEnhanced env url) := by
  unfold failP
  simp only [scrapeArticleContentEnhanced]
  repeat' split
  all_goals intro hs
  all_goals
    first
    | exact (artCatch_shape _ _).2
    | exact ⟨⟨articleGateMsg, rfl, by decide⟩, rfl, rfl⟩
    | simp at hs

theorem routePOST_failP (renv : RouteEnv) (url ty : String) :
    failP (routePOST renv url ty).1 := by
  unfold failP
  simp only [routePOST]
  split
  · intro _
    exact ⟨⟨"URL is required", rfl, by decide⟩, rfl, rfl⟩
  · repeat' split
    · exact scrapeYouTube_failP renv.yt url
    · intro hs
      simp [scrapeTikTokContent] at hs
    · intro hs
      simp [scrapeInstagramContent] at hs
    · exact scrapeArticle_failP renv.art url

theorem routeHandle_failP (p : ParseOutcome) (renv : RouteEnv)
    (hp : parseMsgNonempty p) : failP (routeHandle p renv).1 := by
  cases p with
  | parsed url ty => exact routePOST_failP renv url ty
  | thrown isErr m =>
    cases isErr with
    | true =>
      intro _
      exact ⟨⟨m, rfl, hp⟩, rfl, rfl⟩
    | false =>
      intro _
      exact ⟨⟨"Internal server error", rfl, by decide⟩, rfl, rfl⟩

theorem allFailedResult_shape (m : String) :
    (allFailedResult m).success = false ∧
      (∃ e, (allFailedResult m).error = some e ∧ e ≠ "") ∧
      (allFailedResult m).content = none ∧ (allFailedResult m).title = none :=
  ⟨rfl, ⟨_, rfl,
    string_append_ne_empty _ _
      (string_append_ne_empty _ _ (string_append_ne_empty _ _ (by decide)))⟩,
    rfl, rfl⟩

/-- Every result of the retry loop is either the all-attempts-failed
result or data returned by some successful attempt. -/
theorem scrapeLoop_result (out : Nat → Except String ScrapingResult) :
    ∀ (fuel attempt : Nat) (lastMsg : String),
      (∃ m, (scrapeLoop out fuel attempt lastMsg).1 = allFailedResult m) ∨
      (∃ a d, out a = .ok d ∧ (scrapeLoop out fuel attempt lastMsg).1 = d) := by
  intro fuel
  induction fuel with
  | zero =>
    intro attempt lastMsg
    exact Or.inl ⟨lastMsg, rfl⟩
  | succ n ih =>
    intro attempt lastMsg
    cases h : out attempt with
    | ok d =>
      exact Or.inr ⟨attempt, d, h, by simp [scrapeLoop, h]⟩
    | error m =>
      by_cases hlt : attempt < maxRetries
      · rcases ih (attempt + 1) m with ⟨m', hm'⟩ | ⟨a, d, ha, hd⟩
        · exact Or.inl ⟨m', by simp [scrapeLoop, h, hlt, hm']⟩
        · exact Or.inr ⟨a, d, ha, by simp [scrapeLoop, h, hlt, hd]⟩
      · exact Or.inl ⟨m, by simp [scrapeLoop, h, hlt]⟩

/-- A client attempt can only succeed with a route response body. -/
theorem attemptOutcome_ok {a : ClientAttempt} {url ty : String}
    {d : ScrapingResult} (h : attemptOutcome a url ty = .ok d) :
    ∃ renv, d = (routePOST renv url ty).1 := by
  cases a with
  | netError m => simp [attemptOutcome] at h
  | reply renv =>
    refine ⟨renv, ?_⟩
    simp only [attemptOutcome] at h
    split at h
    · cases h
      rfl
    · cases h

theorem composedExtract_result (cl : Nat → ClientAttempt) (url ty : String) :
    (∃ m, (composedExtract cl url ty).1 = allFailedResult m) ∨
    (∃ renv, (composedExtract cl url ty).1 = (routePOST renv url ty).1) := by
  rcases scrapeLoop_result (fun a => attemptOutcome (cl a) url ty)
      maxRetries 1 "" with ⟨m, hm⟩ | ⟨a, d, ha, hd⟩
  · exact Or.inl ⟨m, hm⟩
  · obtain ⟨renv, hrenv⟩ := attemptOutcome_ok ha
    exact Or.inr ⟨renv, by rw [composedExtract, scrapeContent, hd, hrenv]⟩

theorem composedExtract_failP (cl : Nat → ClientAttempt) (url ty : String) :
    failP (composedExtract cl url ty).1 := by
  rcases composedExtract_result cl url ty with ⟨m, hm⟩ | ⟨renv, hr⟩
  · intro _
    rw [hm]
    exact (allFailedResult_shape m).2
  · rw [hr]
    exact routePOST_failP renv url ty

theorem scrapeWithAssemblyAI_failP (aenv : AssemblyEnv)
    (cl : Nat → ClientAttempt) (url : String) :
    failP (scrapeWithAssemblyAI aenv cl url) := by
  unfold failP
  simp only [scrapeWithAssemblyAI]
  repeat' split
  · intro _
    exact ⟨⟨"Invalid YouTube URL", rfl, by decide⟩, rfl, rfl⟩
  · exact composedExtract_failP cl url "youtube"
  · intro hs
    simp at hs
  · exact composedExtract_failP cl url "youtube"

theorem scrapeWithCustomAPI_failP (cenv : CustomEnv)
    (cl : Nat → ClientAttempt) (url : String) :
    failP (scrapeWithCustomAPI cenv cl url) := by
  unfold failP
  simp only [scrapeWithCustomAPI]
  repeat' split
  · exact composedExtract_failP cl url (getContentType url)
  · exact composedExtract_failP cl url (getContentType url)
  · intro hs
    simp at hs
  · exact composedExtract_failP cl url (getContentType url)

theorem scrapeContentEnhanced_failP (aenv : AssemblyEnv) (cenv : CustomEnv)
    (cl : Nat → ClientAttempt) (url ty : String) :
    failP (scrapeContentEnhanced aenv cenv cl url ty) := by
  unfold failP
  simp only [scrapeContentEnhanced]
  repeat' split
  · next h =>
    intro hs
    simp only [Bool.and_eq_true] at h
    rw [hs] at h
    simp at h
  · next _ h =>
    intro hs
    simp only [Bool.and_eq_true] at h
    rw [hs] at h
    simp at h
  · exact composedExtract_failP cl url ty

/-! ### Success shapes: content present, non-empty, at least 50 after trim -/

theorem string_length_append (a b : String) :
    (a ++ b).length = a.length + b.length := by
  show (a ++ b).data.length = a.data.length + b.data.length
  rw [String.data_append, List.length_append]

set_option maxRecDepth 4000 in
theorem scrapeTikTok_successContent (url : String) :
    successContentP (scrapeTikTokContent url) := by
  intro _
  refine ⟨tiktokContentPre ++ url ++ tiktokContentPost, rfl, ?_, ?_⟩
  · exact string_append_ne_empty _ _
      (string_append_ne_empty _ _ (by decide))
  · calc (50 : Nat) ≤ List.countP nonWs tiktokContentPost.data := by decide
      _ ≤ List.countP nonWs (tiktokContentPre ++ url ++ tiktokContentPost).data := by
          simp only [String.data_append, List.countP_append]
          omega
      _ ≤ (jsTrim (tiktokContentPre ++ url ++ tiktokContentPost)).length :=
          jsTrim_length_ge_countP _

set_option maxRecDepth 4000 in
theorem scrapeInstagram_successContent (url : String) :
    successContentP (scrapeInstagramContent url) := by
  intro _
  refine ⟨instagramContentPre ++ url ++ instagramContentPost, rfl, ?_, ?_⟩
  · exact string_append_ne_empty _ _
      (string_append_ne_empty _ _ (by decide))
  · calc (50 : Nat) ≤ List.countP nonWs instagramContentPost.data := by decide
      _ ≤ List.countP nonWs
            (instagramContentPre ++ url ++ instagramContentPost).data := by
          simp only [String.data_append, List.countP_append]
          omega
      _ ≤ (jsTrim (instagramContentPre ++ url ++ instagramContentPost)).length :=
          jsTrim_length_ge_countP _

/-- What the 50-character acceptance gate guarantees about the content of a
successful video result. -/
theorem gatePassed_content (F : String)
    (hgate : ¬((decide (F = "") || decide ((jsTrim F).length < 50)) = true)) :
    ∃ c, some (jsTrim F) = some c ∧ c ≠ "" ∧ 50 ≤ (jsTrim c).length := by
  simp only [Bool.or_eq_true, decide_eq_true_eq, not_or] at hgate
  refine ⟨jsTrim F, rfl, ?_, ?_⟩
  · intro hc
    have hlen := Nat.le_of_not_lt hgate.2
    rw [hc] at hlen
    exact absurd hlen (by decide)
  · rw [jsTrim_idem]
    exact Nat.le_of_not_lt hgate.2

set_option maxHeartbeats 1000000 in
theorem ytSynthesize_successContent (transcript videoTitle videoDescription
    channelName viewCount publishDate videoId url : String) :
    successContentP (ytSynthesize transcript videoTitle videoDescription
      channelName viewCount publishDate videoId url) := by
  unfold successContentP
  simp only [ytSynthesize]
  repeat' split
  all_goals intro hs
  all_goals
    first
    | ( rename_i hgate hsrc1 hsrc2
        exact gatePassed_content _ hgate )
    | simp at hs

theorem scrapeYouTube_successContent (env : YTEnv) (url : String) :
    successContentP (scrapeYouTubeContentEnhanced env url) := by
  unfold successContentP
  simp only [scrapeYouTubeContentEnhanced]
  repeat' split
  · intro hs
    simp at hs
  · intro hs
    rw [(ytCatch_shape _ _).1] at hs
    simp at hs
  · exact ytSynthesize_successContent _ _ _ _ _ _ _ _

theorem articleRaw_decomp (t a p h c d : String) :
    articleRaw t a p h c d =
      "\n" ++ "A" ++
        ("RTICLE ANALYSIS:\nTitle: " ++ jsOr t "Untitled Article" ++
          "\nAuthor: " ++ jsOr a "Unknown Author" ++
          "\n" ++ (if p = "" then "" else "Published: " ++ p) ++
          "\nSource: " ++ h ++ "\n\nCONTENT") ++
        ":" ++
        ("\n" ++ c ++ "\n\n" ++ (if d = "" then "" else "\nSUMMARY: " ++ d) ++
          "\n    ") := by
  apply String.ext
  simp [articleRaw, String.data_append, List.append_assoc]

theorem articleRaw_trim_ge (t a p h c d : String) :
    50 ≤ (jsTrim (articleRaw t a p h c d)).length := by
  have hlow := jsTrim_length_lower (articleRaw t a p h c d) "\n" "A"
    ("RTICLE ANALYSIS:\nTitle: " ++ jsOr t "Untitled Article" ++
      "\nAuthor: " ++ jsOr a "Unknown Author" ++
      "\n" ++ (if p = "" then "" else "Published: " ++ p) ++
      "\nSource: " ++ h ++ "\n\nCONTENT") ":"
    ("\n" ++ c ++ "\n\n" ++ (if d = "" then "" else "\nSUMMARY: " ++ d) ++
      "\n    ") 'A' ':' rfl rfl (by decide) (by decide)
    (articleRaw_decomp t a p h c d)
  have hmid : 52 ≤ ("RTICLE ANALYSIS:\nTitle: " ++ jsOr t "Untitled Article" ++
      "\nAuthor: " ++ jsOr a "Unknown Author" ++
      "\n" ++ (if p = "" then "" else "Published: " ++ p) ++
      "\nSource: " ++ h ++ "\n\nCONTENT").length := by
    simp only [string_length_append]
    have l1 : ("RTICLE ANALYSIS:\nTitle: " : String).length = 24 := by decide
    have l2 : ("\nAuthor: " : String).length = 9 := by decide
    have l3 : ("\n" : String).length = 1 := by decide
    have l4 : ("\nSource: " : String).length = 9 := by decide
    have l5 : ("\n\nCONTENT" : String).length = 9 := by decide
    omega
  omega

theorem jsTrim_articleRaw_props (t a p h c d : String) :
    jsTrim (articleRaw t a p h c d) ≠ "" ∧
      50 ≤ (jsTrim (jsTrim (articleRaw t a p h c d))).length := by
  constructor
  · intro hc
    have h50 := articleRaw_trim_ge t a p h c d
    rw [hc] at h50
    exact absurd h50 (by decide)
  · rw [jsTrim_idem]
    exact articleRaw_trim_ge t a p h c d

set_option maxHeartbeats 1000000 in
theorem scrapeArticle_successContent (env : ArtEnv) (url : String) :
    successContentP (scrapeArticleContentEnhanced env url) := by
  unfold successContentP
  simp only [scrapeArticleContentEnhanced]
  repeat' split
  all_goals intro hs
  all_goals
    first
    | exact ⟨_, rfl, (jsTrim_articleRaw_props _ _ _ _ _ _).1,
        (jsTrim_articleRaw_props _ _ _ _ _ _).2⟩
    | simp at hs
    | ( rw [(artCatch_shape _ _).1] at hs
        simp at hs )

theorem routePOST_successContent (renv : RouteEnv) (url ty : String) :
    successContentP (routePOST renv url ty).1 := by
  simp only [routePOST]
  split
  · intro hs
    simp at hs
  · repeat' split
    · exact scrapeYouTube_successContent renv.yt url
    · exact scrapeTikTok_successContent url
    · exact scrapeInstagram_successContent url
    · exact scrapeArticle_successContent renv.art url

theorem composedExtract_successContent (cl : Nat → ClientAttempt)
    (url ty : String) : successContentP (composedExtract cl url ty).1 := by
  rcases composedExtract_result cl url ty with ⟨m, hm⟩ | ⟨renv, hr⟩
  · intro hs
    rw [hm, (allFailedResult_shape m).1] at hs
    simp at hs
  · rw [hr]
    exact routePOST_successContent renv url ty

/-! ### Remaining support lemmas -/

theorem scrapeLoop_attempts_le (out : Nat → Except String ScrapingResult) :
    ∀ (fuel attempt : Nat) (lastMsg : String), attempt ≤ maxRetries →
      (scrapeLoop out fuel attempt lastMsg).2.2 ≤ maxRetries := by
  intro fuel
  induction fuel with
  | zero =>
    intro attempt lastMsg _
    simp [scrapeLoop]
  | succ n ih =>
    intro attempt lastMsg h
    cases ho : out attempt with
    | ok d =>
      simp only [scrapeLoop, ho]
      exact h
    | error m =>
      by_cases hlt : attempt < maxRetries
      · simp only [scrapeLoop, ho, hlt, if_pos]
        exact ih (attempt + 1) m hlt
      · simp [scrapeLoop, ho, hlt]

theorem countP_nonWs_jsTrim (s : String) :
    List.countP nonWs (jsTrim s).data = List.countP nonWs s.data :=
  countP_nonWs_trimList s.data

set_option maxRecDepth 4000 in
theorem ytFallbackRaw_trim_facts (T C V P I : String) :
    jsTrim (ytFallbackRaw T C V P I) ≠ "" ∧
      50 ≤ (jsTrim (jsTrim (ytFallbackRaw T C V P I))).length := by
  have hcount : 50 ≤ List.countP nonWs (ytFallbackRaw T C V P I).data := by
    calc (50 : Nat) ≤ List.countP nonWs ytSummaryText.data := by decide
      _ ≤ List.countP nonWs (ytFallbackRaw T C V P I).data := by
          simp only [ytFallbackRaw, String.data_append, List.countP_append]
          omega
  have h1 : 50 ≤ (jsTrim (ytFallbackRaw T C V P I)).length :=
    le_trans hcount (jsTrim_length_ge_countP _)
  constructor
  · intro hc
    rw [hc] at h1
    exact absurd h1 (by decide)
  · calc (50 : Nat) ≤ List.countP nonWs (ytFallbackRaw T C V P I).data := hcount
      _ = List.countP nonWs (jsTrim (ytFallbackRaw T C V P I)).data :=
          (countP_nonWs_jsTrim _).symm
      _ ≤ (jsTrim (jsTrim (ytFallbackRaw T C V P I))).length :=
          jsTrim_length_ge_countP _

/-! ## Claim theorems -/

/-- Claim C7 (counterexample): a URL containing `tiktok.com` does not always
classify as `tiktok` — when it also contains `youtube.com` the first branch
wins, so the claim as stated fails at this input. -/
theorem C7_counterexample :
    containsB "https://www.tiktok.com/watch?from=youtube.com" "tiktok.com" = true ∧
    getContentType "https://www.tiktok.com/watch?from=youtube.com" ≠ "tiktok" ∧
    getContentType "https://www.tiktok.com/watch?from=youtube.com" = "youtube" := by
  refine ⟨by decide, by decide, by decide⟩

/-- Claim C7 (amended): the classifier is total and deterministic, matching
hostname substrings in priority order `youtube > tiktok > instagram > url`:
any URL containing `youtube.com` or `youtu.be` maps to `youtube`; one
containing `tiktok.com` but neither YouTube substring maps to `tiktok`; one
containing `instagram.com` but none of the earlier substrings maps to
`instagram`; every other URL maps to `url`.  `getContentTypeFromUrl` agrees
with `getContentType`, and the three YouTube example URLs classify as
`youtube`. -/
theorem C7_classifier :
    (∀ url, (containsB url "youtube.com" = true ∨ containsB url "youtu.be" = true) →
      getContentType url = "youtube") ∧
    (∀ url, containsB url "youtube.com" = false → containsB url "youtu.be" = false →
      containsB url "tiktok.com" = true → getContentType url = "tiktok") ∧
    (∀ url, containsB url "youtube.com" = false → containsB url "youtu.be" = false →
      containsB url "tiktok.com" = false → containsB url "instagram.com" = true →
      getContentType url = "instagram") ∧
    (∀ url, containsB url "youtube.com" = false → containsB url "youtu.be" = false →
      containsB url "tiktok.com" = false → containsB url "instagram.com" = false →
      getContentType url = "url") ∧
    (∀ url, getContentTypeFromUrl url = getContentType url) ∧
    getContentType "https://youtu.be/abc123" = "youtube" ∧
    getContentType "https://www.youtube.com/watch?v=abc123" = "youtube" ∧
    getContentType "https://youtube.com/embed/abc123" = "youtube" := by
  refine ⟨?_, ?_, ?_, ?_, ?_, by decide, by decide, by decide⟩
  · intro url h
    rcases h with h | h <;> simp [getContentType, h]
  · intro url h1 h2 h3
    simp [getContentType, h1, h2, h3]
  · intro url h1 h2 h3 h4
    simp [getContentType, h1, h2, h3, h4]
  · intro url h1 h2 h3 h4
    simp [getContentType, h1, h2, h3, h4]
  · intro url
    rfl

/-- Claim C7 witness: the amended priority rules applied at concrete URLs. -/
theorem C7_witness :
    getContentType "https://www.tiktok.com/@user/video/7" = "tiktok" ∧
    getContentType "https://www.instagram.com/p/xyz/" = "instagram" ∧
    getContentType "https://example.com/article" = "url" :=
  ⟨C7_classifier.2.1 "https://www.tiktok.com/@user/video/7"
      (by decide) (by decide) (by decide),
    C7_classifier.2.2.1 "https://www.instagram.com/p/xyz/"
      (by decide) (by decide) (by decide) (by decide),
    C7_classifier.2.2.2.1 "https://example.com/article"
      (by decide) (by decide) (by decide) (by decide)⟩

/-- Claim C8: video id extraction returns `dQw4w9WgXcQ` for the two example
URLs and `none` for a URL matching none of the patterns, for both the
library copy and the route copy of `extractYouTubeVideoId`. -/
theorem C8_video_id :
    extractYouTubeVideoId "https://www.youtube.com/watch?v=dQw4w9WgXcQ&t=30s" =
      some "dQw4w9WgXcQ" ∧
    extractYouTubeVideoId "https://youtu.be/dQw4w9WgXcQ" = some "dQw4w9WgXcQ" ∧
    extractYouTubeVideoId "https://example.com/page" = none ∧
    extractYouTubeVideoIdRoute "https://www.youtube.com/watch?v=dQw4w9WgXcQ&t=30s" =
      some "dQw4w9WgXcQ" ∧
    extractYouTubeVideoIdRoute "https://youtu.be/dQw4w9WgXcQ" = some "dQw4w9WgXcQ" ∧
    extractYouTubeVideoIdRoute "https://example.com/page" = none := by
  refine ⟨by decide, by decide, by decide, by decide, by decide, by decide⟩

set_option maxRecDepth 8000 in
/-- Claim C9: for every URL, the TikTok and Instagram strategies return
`success = true` with a non-empty placeholder content block that notes the
extraction limitation, and metadata whose `note` field marks
`manual review recommended` (determinism holds because both strategies are
pure functions of the URL). -/
theorem C9_social_placeholder (url : String) :
    ((scrapeTikTokContent url).success = true ∧
      (∃ c, (scrapeTikTokContent url).content = some c ∧ c ≠ "" ∧
        containsB c "Note:" = true ∧ containsB c "extraction" = true) ∧
      (∃ md, (scrapeTikTokContent url).metadata = some md ∧
        containsB md.note "manual review recommended" = true)) ∧
    ((scrapeInstagramContent url).success = true ∧
      (∃ c, (scrapeInstagramContent url).content = some c ∧ c ≠ "" ∧
        containsB c "Note:" = true ∧ containsB c "extraction" = true) ∧
      (∃ md, (scrapeInstagramContent url).metadata = some md ∧
        containsB md.note "manual review recommended" = true)) := by
  refine ⟨⟨rfl, ⟨_, rfl, ?_, ?_, ?_⟩, ⟨_, rfl, ?_⟩⟩,
    ⟨rfl, ⟨_, rfl, ?_, ?_, ?_⟩, ⟨_, rfl, ?_⟩⟩⟩
  · exact string_append_ne_empty _ _ (string_append_ne_empty _ _ (by decide))
  · exact containsB_append_right _ _ _ (by decide)
  · exact containsB_append_right _ _ _ (by decide)
  · show containsB "Visual/audio content - manual review recommended"
      "manual review recommended" = true
    decide
  · exact string_append_ne_empty _ _ (string_append_ne_empty _ _ (by decide))
  · exact containsB_append_right _ _ _ (by decide)
  · exact containsB_append_right _ _ _ (by decide)
  · show containsB "Visual content - manual review recommended"
      "manual review recommended" = true
    decide

set_option maxRecDepth 8000 in
/-- Claim C4 (code evaluation at the failing input): with a page-scrape
title of `12K` the weak-title heuristic holds and the oEmbed strategy is
invoked, but although oEmbed answers with title `Real Title` the final
result keeps title `12K` — the fill condition `!videoTitle` only assigns
the oEmbed title when the scraped title is empty, contradicting the claim
(and the stated design intent of correcting misclassified view-count
titles). -/
theorem C4_weak_title_eval :
    looksWeakTitle "12K" = true ∧
    ytOembedInvoked env4 = true ∧
    env4.oembed = some { otitle := "Real Title" } ∧
    (scrapeYouTubeContentEnhanced env4
      "https://www.youtube.com/watch?v=abc123").success = true ∧
    (scrapeYouTubeContentEnhanced env4
      "https://www.youtube.com/watch?v=abc123").title = some "12K" ∧
    (scrapeYouTubeContentEnhanced env4
      "https://www.youtube.com/watch?v=abc123").title ≠ some "Real Title" := by
  refine ⟨by decide, by decide, by decide, by decide, by decide, by decide⟩

set_option maxRecDepth 8000 in
/-- Claim C10 (counterexample): a non-throwing video extraction that reaches
the synthesis step can return `success = false` — when the oEmbed endpoint
fills the title with `x` followed by 193 spaces, the assembled content is
203 characters (so the fallback block is not substituted) yet trims to 8
characters, so the insufficient-content branch the claim calls unreachable
is taken. -/
theorem C10_counterexample :
    env10.thrown = none ∧
    extractYouTubeVideoIdRoute "https://www.youtube.com/watch?v=abc123" =
      some "abc123" ∧
    200 ≤ (ytAssembled env10.transcript (ytApiFill env10).1 (ytApiFill env10).2.1
      (ytApiFill env10).2.2.1 (ytApiFill env10).2.2.2.1).length ∧
    scrapeYouTubeContentEnhanced env10 "https://www.youtube.com/watch?v=abc123" =
      { success := false, error := some ytInsufficientMsg } := by
  refine ⟨rfl, by decide, by decide, by decide⟩

/-- Claim C10 (amended): whenever the assembled content is under 200
characters, the substituted VIDEO ANALYSIS fallback block always trims to
more than 50 characters, so the insufficient-content failure branch is not
taken and the extraction succeeds; the branch remains reachable when the
assembled content is 200 characters or more but trims below the gate
(e.g. whitespace-padded field values). -/
theorem C10_fallback_success (env : YTEnv) (url vid : String)
    (hvid : extractYouTubeVideoIdRoute url = some vid)
    (hthrown : env.thrown = none)
    (hlen : (ytAssembled env.transcript (ytApiFill env).1 (ytApiFill env).2.1
      (ytApiFill env).2.2.1 (ytApiFill env).2.2.2.1).length < 200) :
    (scrapeYouTubeContentEnhanced env url).success = true := by
  have hfacts := ytFallbackRaw_trim_facts (ytApiFill env).1 (ytApiFill env).2.2.1
    (ytApiFill env).2.2.2.1 (ytApiFill env).2.2.2.2 vid
  simp only [scrapeYouTubeContentEnhanced, hvid, hthrown, ytSynthesize,
    if_pos hlen]
  rw [if_neg]
  simp only [Bool.or_eq_true, decide_eq_true_eq, not_or]
  exact ⟨hfacts.1, Nat.not_lt.mpr hfacts.2⟩

/-- Claim C10 witness: the amended statement applied to an environment where
nothing was extracted at all — the fallback block carries the result to
success. -/
theorem C10_fallback_success_witness :
    (scrapeYouTubeContentEnhanced {} "https://youtu.be/abc").success = true :=
  C10_fallback_success {} "https://youtu.be/abc" "abc" (by decide) rfl (by decide)

set_option maxRecDepth 4000 in
/-- Claim C5: in the article chain, a fetched page whose extracted body text
is under 100 characters yields `success = false` with an error message
naming heavy JavaScript and access restrictions; in particular a page whose
only extractable text cleans to 99 characters fails, while 101 characters
(all else equal) succeeds. -/
theorem C5_article_gate :
    (∀ (env : ArtEnv) (url : String) (status : Nat) (stt : String),
      env.fetch = .resp true status stt →
      (contentLoop env.contentCands "").length < 100 →
      scrapeArticleContentEnhanced env url =
        { success := false, error := some articleGateMsg }) ∧
    containsB articleGateMsg "heavy JavaScript" = true ∧
    containsB articleGateMsg "access restrictions" = true ∧
    scrapeArticleContentEnhanced env99 "https://example.com/article" =
      { success := false, error := some articleGateMsg } ∧
    (scrapeArticleContentEnhanced env101 "https://example.com/article").success =
      true := by
  refine ⟨?_, by decide, by decide, by decide, by decide⟩
  intro env url status stt hf hlen
  simp [scrapeArticleContentEnhanced, hf, hlen]

/-- Claim C5 witness: the gate applied at the concrete 99-character page. -/
theorem C5_article_gate_witness :
    scrapeArticleContentEnhanced env99 "https://w.example/a" =
      { success := false, error := some articleGateMsg } :=
  C5_article_gate.1 env99 "https://w.example/a" 200 "OK" rfl (by decide)

/-- Claim C6 (counterexample): the composed pipeline (the retry wrapper
`scrapeContent` fetching the scrape route) does not fail immediately on an
empty URL: it performs its 3 fetch attempts and 2 backoff waits before
returning `success = false`, for any transport. -/
theorem C6_counterexample :
    (composedExtract clAllReply "" "youtube").2.2 = 3 ∧
    (composedExtract clAllReply "" "youtube").2.1 = [1000, 2000] ∧
    (composedExtract clAllReply "" "youtube").1.success = false := by
  refine ⟨by decide, by decide, by decide⟩

/-- Claim C6 (amended): on an empty URL the scrape route handler itself
fails immediately with status 400, invoking no extraction strategy and
performing no retry; the client-side wrapper, by contrast, still makes its
3 fetch attempts (with backoff waits 1000 ms and 2000 ms) and then returns
`success = false`, whatever the transport does. -/
theorem C6_empty_url :
    (∀ (renv : RouteEnv) (ty : String),
      routePOST renv "" ty =
        ({ success := false, error := some "URL is required" }, 400, 0)) ∧
    (∀ (cl : Nat → ClientAttempt) (ty : String),
      (composedExtract cl "" ty).1.success = false ∧
      (composedExtract cl "" ty).2.1 = [1000, 2000] ∧
      (composedExtract cl "" ty).2.2 = 3) := by
  constructor
  · intro renv ty
    rfl
  · intro cl ty
    have herr : ∀ a, ∃ m, attemptOutcome (cl a) "" ty = .error m := by
      intro a
      cases cl a with
      | netError m => exact ⟨m, rfl⟩
      | reply renv => exact ⟨_, rfl⟩
    obtain ⟨m1, h1⟩ := herr 1
    obtain ⟨m2, h2⟩ := herr 2
    obtain ⟨m3, h3⟩ := herr 3
    refine ⟨?_, ?_, ?_⟩ <;>
      simp [composedExtract, scrapeContent, scrapeLoop, h1, h2, h3,
        maxRetries, backoffWait, allFailedResult]

/-- Claim C1 (counterexample): `scrapeWithCustomAPI` can return
`success = true` with an empty content string — with the API configured and
an ok response carrying neither `content` nor `text`, the result copies
`data.content || data.text || ''` unvalidated, violating the 50-character
invariant claimed for every entry point. -/
theorem C1_counterexample :
    (scrapeWithCustomAPI cenvC clW "https://example.com/post").success = true ∧
    (scrapeWithCustomAPI cenvC clW "https://example.com/post").content =
      some "" ∧
    ¬ 50 ≤ (jsTrim "").length := by
  refine ⟨by decide, by decide, by decide⟩

/-- Claim C1 (amended): every result with `success = true` produced by the
scrape route handler — and hence every route response relayed by the retry
wrapper `scrapeContent` — carries a content field that is present,
non-empty and at least 50 characters after trimming; `scrapeWithCustomAPI`
and `scrapeWithAssemblyAI`, however, may return `success = true` with
shorter content copied from the external service. -/
theorem C1_success_content :
    (∀ (renv : RouteEnv) (url ty : String),
      successContentP (routePOST renv url ty).1) ∧
    (∀ (cl : Nat → ClientAttempt) (url ty : String),
      successContentP (composedExtract cl url ty).1) :=
  ⟨routePOST_successContent, composedExtract_successContent⟩

/-- Claim C1 witness: the invariant evaluated on a successful route response
(a TikTok placeholder result). -/
theorem C1_success_content_witness :
    ∃ c, ((routePOST {} "https://www.tiktok.com/@u/video/1" "").1).content =
        some c ∧ c ≠ "" ∧ 50 ≤ (jsTrim c).length :=
  C1_success_content.1 {} "https://www.tiktok.com/@u/video/1" "" (by decide)

/-- Claim C2: every result returned with `success = false` — by the route
handler (including its parse-failure path, whose thrown `Error`s carry
non-empty messages), by any strategy chain, by the composed client
pipeline, or by the AssemblyAI / custom-API / enhanced wrappers — has a
present, non-empty `error` and no `content` or `title` field. -/
theorem C2_failure_shape (p : ParseOutcome) (renv : RouteEnv)
    (aenv : AssemblyEnv) (cenv : CustomEnv) (cl : Nat → ClientAttempt)
    (url ty : String) (hp : parseMsgNonempty p) :
    failP (routeHandle p renv).1 ∧
    failP (scrapeYouTubeContentEnhanced renv.yt url) ∧
    failP (scrapeArticleContentEnhanced renv.art url) ∧
    failP (scrapeTikTokContent url) ∧
    failP (scrapeInstagramContent url) ∧
    failP (composedExtract cl url ty).1 ∧
    failP (scrapeWithAssemblyAI aenv cl url) ∧
    failP (scrapeWithCustomAPI cenv cl url) ∧
    failP (scrapeContentEnhanced aenv cenv cl url ty) :=
  ⟨routeHandle_failP p renv hp,
    scrapeYouTube_failP renv.yt url,
    scrapeArticle_failP renv.art url,
    fun hs => Bool.noConfusion hs,
    fun hs => Bool.noConfusion hs,
    composedExtract_failP cl url ty,
    scrapeWithAssemblyAI_failP aenv cl url,
    scrapeWithCustomAPI_failP cenv cl url,
    scrapeContentEnhanced_failP aenv cenv cl url ty⟩

/-- Claim C2 witness: the failure shape evaluated on the parse-failure
response of the route handler. -/
theorem C2_failure_shape_witness :
    (∃ e, ((routeHandle pW ({} : RouteEnv)).1).error = some e ∧ e ≠ "") ∧
      ((routeHandle pW ({} : RouteEnv)).1).content = none ∧
      ((routeHandle pW ({} : RouteEnv)).1).title = none :=
  (C2_failure_shape pW {} {} {} clW "https://example.com/a" ""
    (by decide : ("Unexpected end of JSON input" : String) ≠ "")).1 (by decide)

/-- Claim C3: the retry envelope makes at most 3 attempts; the wait after a
failed non-final attempt `a` is exactly `min(1000 * 2^(a-1), 5000)` ms
(1000 ms after attempt 1, 2000 ms after attempt 2); when all 3 attempts
fail the result is `success = false` with an error message containing the
attempt count 3 and the message of the last underlying error; and when the
first two attempts fail and the third succeeds, the success data is
returned after waits of 1000 ms and 2000 ms. -/
theorem C3_retry_envelope (out : Nat → Except String ScrapingResult)
    (m1 m2 m3 : String) (d : ScrapingResult) :
    (scrapeContent out).2.2 ≤ maxRetries ∧
    backoffWait 1 = 1000 ∧ backoffWait 2 = 2000 ∧
    (∀ a, backoffWait a = min (1000 * 2 ^ (a - 1)) 5000) ∧
    (out 1 = .error m1 → out 2 = .error m2 → out 3 = .error m3 →
      scrapeContent out = (allFailedResult m3, [1000, 2000], 3) ∧
      (allFailedResult m3).success = false) ∧
    (∃ e, (allFailedResult m3).error = some e ∧
      containsB e "3" = true ∧ containsB e m3 = true) ∧
    (out 1 = .error m1 → out 2 = .error m2 → out 3 = .ok d →
      scrapeContent out = (d, [1000, 2000], 3)) := by
  refine ⟨scrapeLoop_attempts_le out maxRetries 1 "" (by decide),
    by decide, by decide, fun a => rfl, ?_, ?_, ?_⟩
  · intro h1 h2 h3
    refine ⟨?_, rfl⟩
    simp [scrapeContent, scrapeLoop, h1, h2, h3, maxRetries, backoffWait]
  · refine ⟨_, rfl, ?_, ?_⟩
    · have h3 : toString maxRetries = "3" := by decide
      have he : "Scraping failed after " ++ toString maxRetries ++
          " attempts: " ++ jsOr m3 "Unknown error" =
          "Scraping failed after " ++ "3" ++
            (" attempts: " ++ jsOr m3 "Unknown error") := by
        rw [h3, string_append_assoc]
      rw [he]
      exact containsB_of_infix _ _ (by decide)
    · by_cases hm : m3 = ""
      · rw [hm]
        exact containsB_empty_pat _
      · have hj : jsOr m3 "Unknown error" = m3 := by simp [jsOr, hm]
        rw [hj]
        exact containsB_of_suffix _ m3
  · intro h1 h2 h3
    simp [scrapeContent, scrapeLoop, h1, h2, h3, maxRetries, backoffWait]

/-- Claim C3 witness: the envelope run on a transport that fails all three
attempts. -/
theorem C3_retry_envelope_witness :
    scrapeContent (fun _ => .error "boom") =
      (allFailedResult "boom", [1000, 2000], 3) ∧
    (allFailedResult "boom").success = false :=
  (C3_retry_envelope (fun _ => .error "boom") "boom" "boom" "boom"
    { success := false }).2.2.2.2.1 rfl rfl rfl
